import Mathlib

/-!
Shallow embedding of the pi-frame video-wall program (src/main.rs): grid
layout computation, the per-source subgraph factory, the restart protocol
with its reentrancy guard, the bus event dispatcher, and the per-source
fallback-overlay wiring.  Machine integers of the source (`usize`) are
modelled as `Nat`; fallible runtime operations are modelled by explicit
environment flags; panics (`expect` / `unwrap` / `panic!`) are modelled by
an explicit `panicked` outcome distinct from a returned error.
-/

/-- The reserved name marker for RTSP elements, `RTSP_PREFIX` in main.rs
(`"rtsp_"`). -/
def rtspPrefixStr : String := "rtsp_"

/- ----------------------------------------------------------------
   String helpers mirroring the Rust `str` operations used by the code
   (`starts_with`, `strip_prefix`, `strip_suffix`), implemented over the
   character list of the string.
   ---------------------------------------------------------------- -/

/-- Rust `s.starts_with(p)`. -/
def strStarts (s p : String) : Bool := p.data.isPrefixOf s.data

/-- Rust `s.ends_with(p)`. -/
def strEnds (s p : String) : Bool := p.data.isSuffixOf s.data

/-- Drop the first `n` characters of `s`. -/
def strDropN (s : String) (n : Nat) : String := ⟨s.data.drop n⟩

/-- Drop the last `n` characters of `s`. -/
def strDropRightN (s : String) (n : Nat) : String := ⟨s.data.take (s.data.length - n)⟩

/-- Rust `s.strip_prefix(p)`: `some` of the remainder when `p` leads `s`. -/
def dropPfx (s p : String) : Option String :=
  if strStarts s p then some (strDropN s p.length) else none

/-- Rust `s.strip_suffix(p)`: `some` of the front when `p` ends `s`. -/
def dropSfx (s p : String) : Option String :=
  if strEnds s p then some (strDropRightN s p.length) else none

/- ----------------------------------------------------------------
   Data model (the `serde` configuration types and the instantiated
   source record), translated field for field from main.rs.
   ---------------------------------------------------------------- -/

/-- Rust `enum RtspScale { Fit, Crop, Scale }`. -/
inductive RtspScale
  | Fit
  | Crop
  | Scale
deriving DecidableEq, Repr

/-- Rust `enum SourceType` — RTSP stream, synthetic test pattern, or still
image with optional explicit fit size. -/
inductive SourceType
  | Rtsp (rtsp : String) (scale : RtspScale)
  | Videotestsrc (videotestsrc : String)
  | Image (image : String) (width height : Option Nat)
deriving DecidableEq, Repr

/-- Rust `struct Source { description, source }`. -/
structure Source where
  description : String
  source : SourceType
deriving DecidableEq, Repr

/-- Rust `struct Layout { horizontal, vertical }`. -/
structure Layout where
  horizontal : Nat
  vertical : Nat
deriving DecidableEq, Repr

/-- Rust `struct Display { framebuffer, layout, time }`. -/
structure Display where
  framebuffer : String
  layout : Layout
  time : Option String
deriving DecidableEq, Repr

/-- Rust `struct Config { display, sources }`. -/
structure Config where
  display : Display
  sources : List Source
deriving DecidableEq, Repr

/-- Rust `struct InstantiatedSource` — a source bound to a running subgraph:
stable name, cell index, and target cell resolution. -/
structure InstantiatedSource where
  source : Source
  name : String
  index : Nat
  width : Nat
  height : Nat
deriving DecidableEq, Repr

/-- Rust `enum RestartReason { Timeout, Error, Reentrant }`. -/
inductive RestartReason
  | Timeout
  | Error
  | Reentrant
deriving DecidableEq, Repr

/- ----------------------------------------------------------------
   Layout: the compositor pad geometry loop of `make_compositor`
   (main.rs lines 189-206).  The Rust code computes, for pad `n`:
     x = (n % horizontal) * width / horizontal
     y = (n / horizontal) * height / vertical
     w = width / horizontal
     h = height / vertical
   with `usize` floor division, multiplication binding before division.
   ---------------------------------------------------------------- -/

/-- One compositor input pad with its geometry (`struct CompositorPad`;
the `i32` casts are value-preserving here, so `Nat` suffices). -/
structure CompositorPad where
  padName : String
  x : Nat
  y : Nat
  width : Nat
  height : Nat
deriving DecidableEq, Repr

/-- The pad-geometry list built by the loop in `make_compositor`:
pad `sink_n` for `n < horizontal * vertical`, positioned exactly as the
Rust expressions compute. -/
def make_compositor_pads (width height : Nat) (layout : Layout) : List CompositorPad :=
  (List.range (layout.horizontal * layout.vertical)).map fun n =>
    { padName := "sink_" ++ toString n
      x := ((n % layout.horizontal) * width) / layout.horizontal
      y := ((n / layout.horizontal) * height) / layout.vertical
      width := width / layout.horizontal
      height := height / layout.vertical }

/-- The position formula as the spec sentence words it: cell index `n`
maps to `((n mod H) * cell_w, (n div H) * cell_h)` where
`cell_w = display_w / H` and `cell_h = display_h / V` (floor division
taken before the multiplication). -/
def specCellPos (dispW dispH h v n : Nat) : Nat × Nat :=
  ((n % h) * (dispW / h), (n / h) * (dispH / v))

/- ----------------------------------------------------------------
   SourceFactory: the three subgraph builders.  Each Rust builder parses
   a textual chain description; we embed the chain as structured data:
   the bin's name (if the bin is created with one), the ordered elements
   of the chain with the names explicitly given in the description, and
   the final caps filter that constrains the bin's output.
   ---------------------------------------------------------------- -/

/-- A `video/x-raw` caps filter: width, height, and the
pixel-aspect-ratio constraint when the description states one. -/
structure CapsFilter where
  width : Nat
  height : Nat
  par : Option (Nat × Nat)
deriving DecidableEq, Repr

/-- One element of a parsed chain description: its kind and the name
explicitly given in the description (if any). -/
structure Elem where
  kind : String
  name : Option String
deriving DecidableEq, Repr

/-- A built source subgraph: the bin name (given to `Bin::with_name`, or
`none` for `Bin::new`), the chain elements, and the final output caps
filter of the description. -/
structure SourceBin where
  binName : Option String
  elems : List Elem
  outCaps : CapsFilter
deriving DecidableEq, Repr

/-- Function `stream_rtsp` (main.rs lines 9-62): the bin is created with
`Bin::with_name(id)` — named exactly the stable id; the internal
elements named in the description all carry the `rtsp_`-prefixed id;
the final caps are `video/x-raw,width,height,pixel-aspect-ratio=1/1`.
The `Crop` scale mode inserts an `aspectratiocrop` element; `Fit` and
`Scale` insert no extra element (`Scale` only adds `add-borders=false`
to `videoconvertscale`). -/
def stream_rtsp (url id : String) (width height : Nat) (scale : RtspScale) :
    SourceBin :=
  let pid := rtspPrefixStr ++ id
  { binName := some id
    elems :=
      [⟨"rtspsrc", some pid⟩, ⟨"queue", none⟩, ⟨"rtph264depay", none⟩,
       ⟨"h264parse", none⟩, ⟨"queue", none⟩,
       ⟨"v4l2h264dec", some (pid ++ "_decoder")⟩,
       ⟨"watchdog", some (pid ++ "_watchdog")⟩] ++
      (match scale with
       | RtspScale.Crop => [⟨"aspectratiocrop", none⟩]
       | _ => []) ++
      [⟨"queue", none⟩,
       ⟨"videoconvertscale", some (pid ++ "_videoconvertscale")⟩,
       ⟨"capsfilter", none⟩, ⟨"queue", some "sink"⟩]
    outCaps := ⟨width, height, some (1, 1)⟩
    -- url only selects the rtspsrc location; it does not affect structure
  }

/-- Function `stream_image` (main.rs lines 64-116): the bin is created with
`Bin::new()` — unnamed; the optional fit size inserts
`videoscale ! video/x-raw,width,height`; the final caps are
`video/x-raw,width,height` with no pixel-aspect-ratio constraint. -/
def stream_image (image : String) (width height : Nat)
    (scale : Option (Nat × Nat)) : SourceBin :=
  { binName := none
    elems :=
      [⟨"filesrc", none⟩, ⟨"decodebin", none⟩] ++
      (match scale with
       | some _ => [⟨"videoscale", none⟩, ⟨"capsfilter", none⟩]
       | none => []) ++
      [⟨"imagefreeze", some "image"⟩, ⟨"videorate", none⟩,
       ⟨"capsfilter", none⟩, ⟨"videobox", some "padding"⟩,
       ⟨"videoscale", none⟩, ⟨"videoconvert", none⟩,
       ⟨"capsfilter", none⟩, ⟨"queue", some "sink"⟩]
    outCaps := ⟨width, height, none⟩ }

/-- Function `stream_videotestsrc` (main.rs lines 118-144): the bin is created
with `Bin::new()` — unnamed; the final caps are
`video/x-raw,width,height` with no pixel-aspect-ratio constraint. -/
def stream_videotestsrc (pattern : String) (width height : Nat) : SourceBin :=
  { binName := none
    elems :=
      [⟨"videotestsrc", none⟩, ⟨"queue", none⟩, ⟨"videoscale", none⟩,
       ⟨"videoconvert", none⟩, ⟨"capsfilter", none⟩,
       ⟨"queue", some "sink"⟩]
    outCaps := ⟨width, height, none⟩ }

/-- Outcome of `create_source`: a built bin, a returned error, or a
process panic (`panic!` in the Rust source, which does not return an
error value to the caller). -/
inductive CreateResult
  | ok (bin : SourceBin)
  | err (msg : String)
  | panicked (msg : String)
deriving DecidableEq, Repr

/-- Function `create_source` (main.rs lines 351-381).  `parseOk` models whether
the underlying `gstreamer::parse::launch` of the chosen builder
succeeds; a parse failure propagates as a returned error (`?`).  For an
`Image` source the optional fit dimensions are matched first: both
present or both absent select the builder, while exactly one present
hits `panic!("width and height must be provided")` before any chain is
built. -/
def create_source (parseOk : Bool) (source : InstantiatedSource) :
    CreateResult :=
  match source.source.source with
  | SourceType.Rtsp rtsp scale =>
      if parseOk then
        CreateResult.ok
          (stream_rtsp rtsp source.name source.width source.height scale)
      else CreateResult.err "launch"
  | SourceType.Videotestsrc p =>
      if parseOk then
        CreateResult.ok (stream_videotestsrc p source.width source.height)
      else CreateResult.err "launch"
  | SourceType.Image image w? h? =>
      match w?, h? with
      | some w, some h =>
          if parseOk then
            CreateResult.ok
              (stream_image image source.width source.height (some (w, h)))
          else CreateResult.err "launch"
      | none, none =>
          if parseOk then
            CreateResult.ok
              (stream_image image source.width source.height none)
          else CreateResult.err "launch"
      | _, _ => CreateResult.panicked "width and height must be provided"

/-- An `Image` source spec carrying exactly one of the two optional fit
dimensions. -/
def hasMixedFit (source : InstantiatedSource) : Bool :=
  match source.source.source with
  | SourceType.Image _ (some _) none => true
  | SourceType.Image _ none (some _) => true
  | _ => false

/- ----------------------------------------------------------------
   Restart protocol (`restart_source` and `restart_inner`, main.rs
   lines 282-349).  The runtime graph operations are modelled by an
   environment of outcome flags, one per fallible operation, in the
   order the code performs them; the observable graph mutations are
   recorded as an effect trace.
   ---------------------------------------------------------------- -/

/-- Outcomes of the fallible runtime operations performed by
`restart_inner`, in program order.  `peerPad` is the peer pad found for
the bin's output ghost pad; `peerParent` is that pad's parent element
(`peer.parent()`), captured at detach time and used as the link target
for the rebuilt subgraph. -/
structure RestartEnv where
  binFound : Bool
  srcPadFound : Bool
  peerFound : Bool
  unlinkOk : Bool
  parentFound : Bool
  removeOk : Bool
  createOk : Bool
  addOk : Bool
  linkOk : Bool
  syncOk : Bool
  peerPad : String
  peerParent : String
deriving DecidableEq, Repr

/-- Observable graph mutations performed by `restart_inner`, in the
order the code performs them. -/
inductive Effect
  | logRestarting (name : String)
  | unlinkFrom (peer : String)
  | removeOldBin
  | deferSetNull
  | createNew (name : String) (index width height : Nat)
  | addNewBin
  | linkTo (target : String)
  | syncWithParent
  | logRestarted (name : String)
deriving DecidableEq, Repr

/-- Result of running the restart body: success, a returned error
(propagated by `?` to `restart_source`), or a panic from one of the
`expect` calls (which never returns to `restart_source`). -/
inductive RunResult
  | ok
  | err (msg : String)
  | panicked (msg : String)
deriving DecidableEq, Repr

/-- True exactly on the `panicked` outcome. -/
def isPanicRun : RunResult → Bool
  | RunResult.panicked _ => true
  | _ => false

/-- Function `restart_inner` (main.rs lines 312-349), as a straight-line function
of the operation outcomes.  Program order: `by_name` (`expect`),
`static_pad("src")` (`expect`), `peer()` (`expect`), `unlink` (`?`),
`parent()` (`expect`), `pipeline.remove` (`?`), deferred
`set_state(Null)` via `idle_add`, `create_source` (`?`),
`pipeline.add` (`?`), `link` to the captured peer parent (`?`),
`sync_state_with_parent` (`?`). -/
def restart_inner (env : RestartEnv) (source : InstantiatedSource) :
    RunResult × List Effect :=
  let fx0 := [Effect.logRestarting source.name]
  if env.binFound = false then (RunResult.panicked "no bin", fx0)
  else if env.srcPadFound = false then (RunResult.panicked "no src", fx0)
  else if env.peerFound = false then (RunResult.panicked "no peer", fx0)
  else if env.unlinkOk = false then (RunResult.err "unlink", fx0)
  else
  let fx1 := fx0 ++ [Effect.unlinkFrom env.peerPad]
  if env.parentFound = false then (RunResult.panicked "no parent", fx1)
  else if env.removeOk = false then (RunResult.err "remove", fx1)
  else
  let fx2 := fx1 ++ [Effect.removeOldBin, Effect.deferSetNull]
  if env.createOk = false then (RunResult.err "create", fx2)
  else
  let fx3 := fx2 ++
    [Effect.createNew source.name source.index source.width source.height]
  if env.addOk = false then (RunResult.err "add", fx3)
  else
  let fx4 := fx3 ++ [Effect.addNewBin]
  if env.linkOk = false then (RunResult.err "link", fx4)
  else
  let fx5 := fx4 ++ [Effect.linkTo env.peerParent]
  if env.syncOk = false then (RunResult.err "sync", fx5)
  else (RunResult.ok, fx5 ++ [Effect.syncWithParent,
                              Effect.logRestarted source.name])

/-- The observable result of one `restart_source` call: the guard table
afterwards (the set of ids present in `RESTART_LOCK`), the deferred
`idle_add` re-invocations it scheduled, the restart body's outcome and
effect trace when the body ran (`none` when the guarded early return
was taken), and the id logged by the
`*** Failed to restart source` message when the body returned an
error. -/
structure RestartStep where
  guardAfter : List String
  deferred : List (String × RestartReason)
  ran : Option (RunResult × List Effect)
  failureLoggedFor : Option String
deriving DecidableEq, Repr

/-- Function `restart_source` (main.rs lines 282-310).  `guard` is the set of
ids currently present in the `RESTART_LOCK` table.  If the id is
present: a non-`Reentrant` call schedules exactly one deferred
re-invocation tagged `Reentrant` and returns; a `Reentrant` call
returns scheduling nothing.  Otherwise the id is inserted, the body
runs, an error result is logged with the id, and the id is removed —
unless the body panicked, in which case the removal is never
executed. -/
def restart_source (guard : List String) (env : RestartEnv)
    (source : InstantiatedSource) (reason : RestartReason) : RestartStep :=
  if source.name ∈ guard then
    if reason = RestartReason.Reentrant then
      { guardAfter := guard, deferred := [], ran := none,
        failureLoggedFor := none }
    else
      { guardAfter := guard,
        deferred := [(source.name, RestartReason.Reentrant)],
        ran := none, failureLoggedFor := none }
  else
    let g1 := source.name :: guard
    match restart_inner env source with
    | (RunResult.panicked m, fx) =>
        { guardAfter := g1, deferred := [],
          ran := some (RunResult.panicked m, fx), failureLoggedFor := none }
    | (RunResult.err m, fx) =>
        { guardAfter := g1.erase source.name, deferred := [],
          ran := some (RunResult.err m, fx),
          failureLoggedFor := some source.name }
    | (RunResult.ok, fx) =>
        { guardAfter := g1.erase source.name, deferred := [],
          ran := some (RunResult.ok, fx), failureLoggedFor := none }

/- ----------------------------------------------------------------
   EventDispatcher: the `bus.add_watch` closure of `main` (main.rs
   lines 553-645).  A bus message is modelled by its view kind, the
   originating element's name (when the message carries a source), and
   the structure name (when it carries a structure).  The dispatcher
   classifies the message and either returns `ControlFlow::Continue`
   together with the restart invocations it makes, or panics on one of
   its `unwrap` calls.
   ---------------------------------------------------------------- -/

/-- A bus message as the watch closure observes it. -/
inductive Msg
  | error (srcName : Option String) (structName : Option String)
  | stateChanged (srcName : Option String)
  | element (srcName : Option String) (structName : Option String)
  | streamStatus (srcName : Option String) (statusType : Option String)
  | eos
  | qos (srcName : Option String)
  | latency
  | progress (srcName : Option String)
  | other
deriving DecidableEq, Repr

/-- Result of one invocation of the watch closure: it either returns
`ControlFlow::Continue`, having synchronously invoked
`restart_source` on the listed sources/reasons, or it panics on an
`unwrap` of `None`. -/
inductive DispatchResult
  | cont (restarts : List (InstantiatedSource × RestartReason))
  | panicked (msg : String)
deriving DecidableEq, Repr

/-- True exactly on the `panicked` outcome. -/
def isPanicDispatch : DispatchResult → Bool
  | DispatchResult.panicked _ => true
  | _ => false

/-- The watch closure (main.rs lines 553-645).  `sources` is the
`HashMap` built in `main`, keyed by the stable id `src_{index}`.

Error view: when the structure is `GstMessageError` and the source
element's name starts with `rtsp_`, the prefix is stripped, a trailing
`_watchdog` is stripped when present, and `sources.get(name).unwrap()`
is consulted — a panic when the derived id is not a key.

Element view: when the structure is `GstRTSPSrcTimeout`, the source
name goes through `strip_prefix(RTSP_PREFIX).unwrap()` — a panic when
the prefix is absent — then `sources.get(name).unwrap()`.

All other views only log and return `Continue`. -/
def dispatch (sources : List (String × InstantiatedSource)) (msg : Msg) :
    DispatchResult :=
  match msg with
  | Msg.error srcName structName =>
      match structName with
      | some sn =>
          if sn = "GstMessageError" then
            match srcName with
            | some n =>
                if strStarts n rtspPrefixStr then
                  let name := strDropN n rtspPrefixStr.length
                  let name := (dropSfx name "_watchdog").getD name
                  match sources.lookup name with
                  | some s => DispatchResult.cont [(s, RestartReason.Error)]
                  | none => DispatchResult.panicked "unwrap of sources.get"
                else DispatchResult.cont []
            | none => DispatchResult.cont []
          else DispatchResult.cont []
      | none => DispatchResult.cont []
  | Msg.element srcName structName =>
      match structName with
      | some sn =>
          if sn = "GstRTSPSrcTimeout" then
            match srcName with
            | some n =>
                match dropPfx n rtspPrefixStr with
                | some name =>
                    match sources.lookup name with
                    | some s =>
                        DispatchResult.cont [(s, RestartReason.Timeout)]
                    | none => DispatchResult.panicked "unwrap of sources.get"
                | none => DispatchResult.panicked "unwrap of strip"
            | none => DispatchResult.cont []
          else DispatchResult.cont []
      | none => DispatchResult.cont []
  | _ => DispatchResult.cont []

/-- The exact set of messages on which `dispatch` panics, stated from
the code's two `unwrap` sites: a `GstMessageError` error whose
`rtsp_`-prefixed source name strips (also of a trailing `_watchdog`)
to an id that is not a configured source key, and a
`GstRTSPSrcTimeout` element message whose source name either lacks the
`rtsp_` prefix or strips to an unknown id. -/
def dispatchPanicCond (sources : List (String × InstantiatedSource))
    (msg : Msg) : Bool :=
  match msg with
  | Msg.error (some n) (some sn) =>
      sn = "GstMessageError" && strStarts n rtspPrefixStr &&
        (sources.lookup
          ((dropSfx (strDropN n rtspPrefixStr.length) "_watchdog").getD
            (strDropN n rtspPrefixStr.length))).isNone
  | Msg.element (some n) (some sn) =>
      sn = "GstRTSPSrcTimeout" &&
        (match dropPfx n rtspPrefixStr with
         | some name => (sources.lookup name).isNone
         | none => true)
  | _ => false

/- ----------------------------------------------------------------
   Per-source fallback overlay wiring in `main` (main.rs lines
   525-542): for every configured source, a
   `fallbackswitch immediate-fallback=true timeout={10s}` bin with the
   text overlay and the snow-pattern stale stream is built and linked
   between the source bin and compositor pad `sink_{index}`,
   unconditionally — no configuration field gates it.
   ---------------------------------------------------------------- -/

/-- Rust `Duration::from_secs(10).as_nanos()`. -/
def fallback_timeout_ns : Nat := 10 * 1000000000

/-- The per-source fallback bin as described in the
`bin_from_description` string: the `fallbackswitch` properties and the
overlay text. -/
structure FallbackOverlayDesc where
  immediateFallback : Bool
  timeoutNs : Nat
  text : String
deriving DecidableEq, Repr

/-- The wiring `main` performs for the source at `index`: source bin →
fallback/text overlay → compositor pad `sink_{index}`.  The `overlay`
field is the fallback bin placed in front of the cell; the config is a
parameter only to show nothing in it is consulted for the overlay. -/
structure CellWiring where
  sourceName : String
  overlay : Option FallbackOverlayDesc
  compositorPadName : String
deriving DecidableEq, Repr

/-- The per-source loop body of `main` (main.rs lines 510-543),
restricted to its wiring outputs: the instantiated name `src_{index}`,
the fallback overlay (always built, with `immediate-fallback=true` and
the 10-second timeout), and the compositor pad `sink_{index}` the
overlay output links to. -/
def wireCell (cfg : Config) (index : Nat) (src : Source) : CellWiring :=
  { sourceName := "src_" ++ toString index
    overlay := some
      { immediateFallback := true
        timeoutNs := fallback_timeout_ns
        text := src.description }
    compositorPadName := "sink_" ++ toString index }

/- ----------------------------------------------------------------
   Concrete fixtures used by witnesses and counterexamples.
   ---------------------------------------------------------------- -/

/-- The message field the dispatcher reads the originating element name
from (`err.src()` / `element.src()`). -/
def msgSrcOf : Msg → Option String
  | Msg.error s _ => s
  | Msg.element s _ => s
  | _ => none

/-- An instantiated RTSP source occupying cell 0. -/
def src0ex : InstantiatedSource :=
  { source := { description := "front door",
                source := SourceType.Rtsp "rtsp://cam0/stream" RtspScale.Fit }
    name := "src_0", index := 0, width := 640, height := 400 }

/-- An instantiated RTSP source occupying cell 2. -/
def src2ex : InstantiatedSource :=
  { source := { description := "back door",
                source := SourceType.Rtsp "rtsp://cam2/stream" RtspScale.Crop }
    name := "src_2", index := 2, width := 640, height := 400 }

/-- A still-image source spec carrying a fit width but no fit height. -/
def srcMixedFit : InstantiatedSource :=
  { source := { description := "poster",
                source := SourceType.Image "a.png" (some 300) none }
    name := "src_1", index := 1, width := 640, height := 400 }

/-- A restart environment in which every runtime operation succeeds. -/
def envAllOk : RestartEnv :=
  { binFound := true, srcPadFound := true, peerFound := true,
    unlinkOk := true, parentFound := true, removeOk := true,
    createOk := true, addOk := true, linkOk := true, syncOk := true,
    peerPad := "overlay_sink", peerParent := "overlay_bin" }

/-- As `envAllOk`, but the bin's output pad has no peer. -/
def envNoPeer : RestartEnv := { envAllOk with peerFound := false }

/-- As `envAllOk`, but the unlink operation errors. -/
def envUnlinkFail : RestartEnv := { envAllOk with unlinkOk := false }

/-- As `envAllOk`, but `create_source` fails. -/
def envCreateFail : RestartEnv := { envAllOk with createOk := false }

/-- A synthetic-pattern source spec. -/
def srcPlainEx : Source :=
  { description := "test card", source := SourceType.Videotestsrc "smpte" }

/-- A minimal concrete configuration (the `Config` shape has no field
that could enable or disable the fallback overlay). -/
def cfgEx : Config :=
  { display := { framebuffer := "/dev/fb0", layout := ⟨2, 2⟩, time := none }
    sources := [srcPlainEx] }

/- ----------------------------------------------------------------
   Helper lemmas.
   ---------------------------------------------------------------- -/

/-- The failure log entry of `restart_source` as a function of the
body's result. -/
def logOf (res : RunResult) (name : String) : Option String :=
  match res with
  | RunResult.err _ => some name
  | _ => none

theorem restart_source_run (guard : List String) (env : RestartEnv)
    (source : InstantiatedSource) (reason : RestartReason)
    (hg : source.name ∉ guard)
    (hnp : isPanicRun (restart_inner env source).1 = false) :
    restart_source guard env source reason =
      { guardAfter := guard, deferred := [],
        ran := some (restart_inner env source),
        failureLoggedFor := logOf (restart_inner env source).1 source.name } := by
  rcases hri : restart_inner env source with ⟨res, fx⟩
  cases res with
  | ok => simp [restart_source, hg, hri, logOf, List.erase_cons_head]
  | err m => simp [restart_source, hg, hri, logOf, List.erase_cons_head]
  | panicked m => rw [hri] at hnp; simp [isPanicRun] at hnp

/- ----------------------------------------------------------------
   Claims.
   ---------------------------------------------------------------- -/

/-- C1: when `restart(id, reason)` runs while the guard entry for `id`
is already set, no restart step is performed and the guard is left
unchanged; a non-`Reentrant` call schedules exactly one deferred
re-invocation tagged `Reentrant`, while a `Reentrant` call that again
finds the guard set returns without scheduling anything further — so at
most one deferred re-check arises per collision and no unbounded chain
of deferrals is possible. -/
theorem c1_reentrancy_guard (guard : List String) (env : RestartEnv)
    (source : InstantiatedSource) (reason : RestartReason)
    (h : source.name ∈ guard) :
    (restart_source guard env source reason).ran = none ∧
    (restart_source guard env source reason).guardAfter = guard ∧
    (reason ≠ RestartReason.Reentrant →
      (restart_source guard env source reason).deferred =
        [(source.name, RestartReason.Reentrant)]) ∧
    (reason = RestartReason.Reentrant →
      (restart_source guard env source reason).deferred = []) := by
  by_cases hr : reason = RestartReason.Reentrant <;>
    simp [restart_source, h, hr]

/-- Witness for C1 at a concrete collision: id `src_2` already guarded,
an `Error` call defers exactly one `Reentrant` re-check and a
`Reentrant` call defers nothing. -/
theorem c1_reentrancy_guard_w :
    (restart_source ["src_2"] envAllOk src2ex RestartReason.Error).ran =
      none ∧
    (restart_source ["src_2"] envAllOk src2ex RestartReason.Error).deferred =
      [("src_2", RestartReason.Reentrant)] ∧
    (restart_source ["src_2"] envAllOk src2ex
        RestartReason.Reentrant).deferred = [] :=
  ⟨(c1_reentrancy_guard ["src_2"] envAllOk src2ex RestartReason.Error
      (by decide)).1,
   (c1_reentrancy_guard ["src_2"] envAllOk src2ex RestartReason.Error
      (by decide)).2.2.1 (by decide),
   (c1_reentrancy_guard ["src_2"] envAllOk src2ex RestartReason.Reentrant
      (by decide)).2.2.2 rfl⟩

/-- C2: whenever the restart body runs and returns (success or error
result), `restart_source` removes the guard entry for the id before
returning and schedules nothing further; in particular when
`create_source` fails mid-restart, the failure is logged with the
source id, the guard is cleared, no retry is scheduled, and the trace
ends at the deferred-teardown step — the old subgraph was unlinked and
removed and no new one was created or attached, leaving the cell
detached. -/
theorem c2_guard_cleared (guard : List String) (env : RestartEnv)
    (source : InstantiatedSource) (reason : RestartReason)
    (hg : source.name ∉ guard)
    (hnp : isPanicRun (restart_inner env source).1 = false) :
    (restart_source guard env source reason).guardAfter = guard ∧
    source.name ∉ (restart_source guard env source reason).guardAfter ∧
    (restart_source guard env source reason).deferred = [] ∧
    (env.binFound = true → env.srcPadFound = true → env.peerFound = true →
     env.unlinkOk = true → env.parentFound = true → env.removeOk = true →
     env.createOk = false →
      (restart_source guard env source reason).failureLoggedFor =
        some source.name ∧
      (restart_source guard env source reason).ran =
        some (RunResult.err "create",
          [Effect.logRestarting source.name, Effect.unlinkFrom env.peerPad,
           Effect.removeOldBin, Effect.deferSetNull])) := by
  rw [restart_source_run guard env source reason hg hnp]
  refine ⟨rfl, hg, rfl, ?_⟩
  intro h1 h2 h3 h4 h5 h6 h7
  have hri : restart_inner env source =
      (RunResult.err "create",
        [Effect.logRestarting source.name, Effect.unlinkFrom env.peerPad,
         Effect.removeOldBin, Effect.deferSetNull]) := by
    simp [restart_inner, h1, h2, h3, h4, h5, h6, h7]
  rw [hri]
  exact ⟨rfl, rfl⟩

/-- Witness for C2 at a concrete input: a `create_source` failure for
`src_2` with an empty guard table — the guard stays clear, nothing is
deferred, the failure is logged for `src_2`, and nothing was
attached. -/
theorem c2_guard_cleared_w :
    (restart_source [] envCreateFail src2ex RestartReason.Timeout).guardAfter
      = [] ∧
    (restart_source [] envCreateFail src2ex RestartReason.Timeout).deferred
      = [] ∧
    (restart_source [] envCreateFail src2ex
        RestartReason.Timeout).failureLoggedFor = some "src_2" ∧
    (restart_source [] envCreateFail src2ex RestartReason.Timeout).ran =
      some (RunResult.err "create",
        [Effect.logRestarting "src_2", Effect.unlinkFrom "overlay_sink",
         Effect.removeOldBin, Effect.deferSetNull]) := by
  have h := c2_guard_cleared [] envCreateFail src2ex RestartReason.Timeout
    (by decide) (by decide)
  exact ⟨h.1, h.2.2.1, (h.2.2.2 rfl rfl rfl rfl rfl rfl rfl).1,
         (h.2.2.2 rfl rfl rfl rfl rfl rfl rfl).2⟩

/-- C3 counterexample: a restart attempt for `src_2` whose output pad
has no peer does *not* abort with the failure logged and the guard
cleared — the body panics on `pad.peer().expect("no peer")`, nothing is
logged through the error path, and the guard entry for `src_2` is left
set. -/
theorem c3_detach_failure_cx :
    (restart_source [] envNoPeer src2ex RestartReason.Error).ran =
      some (RunResult.panicked "no peer", [Effect.logRestarting "src_2"]) ∧
    (restart_source [] envNoPeer src2ex
        RestartReason.Error).failureLoggedFor = none ∧
    "src_2" ∈ (restart_source [] envNoPeer src2ex
        RestartReason.Error).guardAfter := by decide

/-- C3 amended: when unlinking the output pad from its peer errors, the
restart attempt aborts immediately with the failure logged for the id,
the guard cleared, and no retry scheduled; but when the output pad has
*no peer*, the body panics via `expect` (crashing the process) and the
guard entry remains set. -/
theorem c3_detach_failure_amended :
    (∀ (guard : List String) (env : RestartEnv)
       (source : InstantiatedSource) (reason : RestartReason),
      source.name ∉ guard → env.binFound = true → env.srcPadFound = true →
      env.peerFound = true → env.unlinkOk = false →
        (restart_source guard env source reason).ran =
          some (RunResult.err "unlink",
            [Effect.logRestarting source.name]) ∧
        (restart_source guard env source reason).failureLoggedFor =
          some source.name ∧
        (restart_source guard env source reason).guardAfter = guard ∧
        source.name ∉ (restart_source guard env source reason).guardAfter ∧
        (restart_source guard env source reason).deferred = []) ∧
    (∀ (guard : List String) (env : RestartEnv)
       (source : InstantiatedSource) (reason : RestartReason),
      source.name ∉ guard → env.binFound = true → env.srcPadFound = true →
      env.peerFound = false →
        (restart_source guard env source reason).ran =
          some (RunResult.panicked "no peer",
            [Effect.logRestarting source.name]) ∧
        source.name ∈ (restart_source guard env source reason).guardAfter) := by
  constructor
  · intro guard env source reason hg h1 h2 h3 h4
    have hri : restart_inner env source =
        (RunResult.err "unlink", [Effect.logRestarting source.name]) := by
      simp [restart_inner, h1, h2, h3, h4]
    rw [restart_source_run guard env source reason hg (by rw [hri]; rfl), hri]
    exact ⟨rfl, rfl, rfl, hg, rfl⟩
  · intro guard env source reason hg h1 h2 h3
    have hri : restart_inner env source =
        (RunResult.panicked "no peer", [Effect.logRestarting source.name]) := by
      simp [restart_inner, h1, h2, h3]
    simp [restart_source, hg, hri]

/-- Witness for the amended C3 at concrete inputs: an unlink failure
for `src_2` aborts with the guard clear and the failure logged, and a
missing peer panics with the guard left set. -/
theorem c3_detach_failure_amended_w :
    (restart_source [] envUnlinkFail src2ex RestartReason.Error).ran =
      some (RunResult.err "unlink", [Effect.logRestarting "src_2"]) ∧
    (restart_source [] envUnlinkFail src2ex
        RestartReason.Error).guardAfter = [] ∧
    (restart_source [] envNoPeer src2ex RestartReason.Error).ran =
      some (RunResult.panicked "no peer", [Effect.logRestarting "src_2"]) ∧
    "src_2" ∈ (restart_source [] envNoPeer src2ex
        RestartReason.Error).guardAfter := by
  have ha := c3_detach_failure_amended.1 [] envUnlinkFail src2ex
    RestartReason.Error (by decide) rfl rfl rfl rfl
  have hb := c3_detach_failure_amended.2 [] envNoPeer src2ex
    RestartReason.Error (by decide) rfl rfl rfl
  exact ⟨ha.1, ha.2.2.1, hb.1, hb.2⟩

/-- C4: a fully successful restart performs, in order: unlink of the
output pad from its peer, removal of the old bin, the deferred
null-state teardown, creation of the replacement via `create_source`
with the *same* id, cell index, and target width/height as the original
`InstantiatedSource`, addition of the new bin, a link of its output to
the very peer parent captured at detach time (hence the same compositor
slot), and state synchronization — so detach and removal strictly
precede creation and attachment, and the guard ends cleared. -/
theorem c4_successful_restart (guard : List String) (env : RestartEnv)
    (source : InstantiatedSource) (reason : RestartReason)
    (hg : source.name ∉ guard)
    (h1 : env.binFound = true) (h2 : env.srcPadFound = true)
    (h3 : env.peerFound = true) (h4 : env.unlinkOk = true)
    (h5 : env.parentFound = true) (h6 : env.removeOk = true)
    (h7 : env.createOk = true) (h8 : env.addOk = true)
    (h9 : env.linkOk = true) (h10 : env.syncOk = true) :
    (restart_source guard env source reason).ran =
      some (RunResult.ok,
        [Effect.logRestarting source.name, Effect.unlinkFrom env.peerPad,
         Effect.removeOldBin, Effect.deferSetNull,
         Effect.createNew source.name source.index source.width
           source.height,
         Effect.addNewBin, Effect.linkTo env.peerParent,
         Effect.syncWithParent, Effect.logRestarted source.name]) ∧
    (restart_source guard env source reason).guardAfter = guard ∧
    source.name ∉ (restart_source guard env source reason).guardAfter := by
  have hri : restart_inner env source =
      (RunResult.ok,
        [Effect.logRestarting source.name, Effect.unlinkFrom env.peerPad,
         Effect.removeOldBin, Effect.deferSetNull,
         Effect.createNew source.name source.index source.width
           source.height,
         Effect.addNewBin, Effect.linkTo env.peerParent,
         Effect.syncWithParent, Effect.logRestarted source.name]) := by
    simp [restart_inner, h1, h2, h3, h4, h5, h6, h7, h8, h9, h10]
  rw [restart_source_run guard env source reason hg (by rw [hri]; rfl), hri]
  exact ⟨rfl, rfl, hg⟩

/-- Witness for C4 at a concrete input: a successful restart of
`src_2` rebuilds with the same id `src_2`, index 2 and 640×400 target,
relinks to the captured peer parent, and clears the guard. -/
theorem c4_successful_restart_w :
    (restart_source [] envAllOk src2ex RestartReason.Timeout).ran =
      some (RunResult.ok,
        [Effect.logRestarting "src_2", Effect.unlinkFrom "overlay_sink",
         Effect.removeOldBin, Effect.deferSetNull,
         Effect.createNew "src_2" 2 640 400, Effect.addNewBin,
         Effect.linkTo "overlay_bin", Effect.syncWithParent,
         Effect.logRestarted "src_2"]) ∧
    (restart_source [] envAllOk src2ex RestartReason.Timeout).guardAfter
      = [] := by
  have h := c4_successful_restart [] envAllOk src2ex RestartReason.Timeout
    (by decide) rfl rfl rfl rfl rfl rfl rfl rfl rfl rfl
  exact ⟨h.1, h.2.1⟩

/-- C5 counterexample: on an 11-pixel-wide display with a 3×1 grid,
cell 2 is placed by the code at x = (2 * 11) / 3 = 7, while the claim's
formula `(n mod H) * cell_w` with `cell_w = display_w / H` gives
2 * (11 / 3) = 6 — the code floor-divides *after* the multiplication,
the claim's formula before it. -/
theorem c5_layout_cx :
    (make_compositor_pads 11 5 ⟨3, 1⟩)[2]? =
      some ⟨"sink_2", 7, 0, 3, 5⟩ ∧
    specCellPos 11 5 3 1 2 = (6, 0) ∧ (7 : Nat) ≠ 6 := by decide

/-- C5 amended: cell `n` gets position
`((n mod H) * display_w / H, (n div H) * display_h / V)` (multiply
first, floor-divide second) and size `(display_w / H, display_h / V)`;
this coincides with the claim's `(n mod H) * cell_w` formula whenever
`H` divides `display_w` (resp. `V` divides `display_h`), and in
particular grid (2,2) on a 1280×800 display yields the four 640×400
cells at (0,0), (640,0), (0,400), (640,400). -/
theorem c5_layout_amended :
    (∀ (w h hc vc n : Nat), n < hc * vc →
      (make_compositor_pads w h ⟨hc, vc⟩)[n]? =
        some ⟨"sink_" ++ toString n, ((n % hc) * w) / hc,
              ((n / hc) * h) / vc, w / hc, h / vc⟩) ∧
    (∀ (w hc n : Nat), hc ∣ w →
      ((n % hc) * w) / hc = (n % hc) * (w / hc)) ∧
    (∀ (w h hc vc n : Nat), hc ∣ w → vc ∣ h → n < hc * vc →
      ((make_compositor_pads w h ⟨hc, vc⟩)[n]?).map (fun p => (p.x, p.y)) =
        some (specCellPos w h hc vc n)) ∧
    make_compositor_pads 1280 800 ⟨2, 2⟩ =
      [⟨"sink_0", 0, 0, 640, 400⟩, ⟨"sink_1", 640, 0, 640, 400⟩,
       ⟨"sink_2", 0, 400, 640, 400⟩, ⟨"sink_3", 640, 400, 640, 400⟩] := by
  have hcell : ∀ (w h hc vc n : Nat), n < hc * vc →
      (make_compositor_pads w h ⟨hc, vc⟩)[n]? =
        some ⟨"sink_" ++ toString n, ((n % hc) * w) / hc,
              ((n / hc) * h) / vc, w / hc, h / vc⟩ := by
    intro w h hc vc n hn
    unfold make_compositor_pads
    rw [List.getElem?_map, List.getElem?_range hn]
    rfl
  refine ⟨hcell, ?_, ?_, by decide⟩
  · intro w hc n hdvd
    exact Nat.mul_div_assoc (n % hc) hdvd
  · intro w h hc vc n hw hh hn
    rw [hcell w h hc vc n hn]
    simp only [Option.map_some']
    rw [Nat.mul_div_assoc (n % hc) hw, Nat.mul_div_assoc (n / hc) hh]
    rfl

/-- Witness for the amended C5 at concrete inputs: cell 3 of the
(2,2)/1280×800 grid, and agreement with the spec formula there since
2 ∣ 1280 and 2 ∣ 800. -/
theorem c5_layout_amended_w :
    (make_compositor_pads 1280 800 ⟨2, 2⟩)[3]? =
      some ⟨"sink_3", 640, 400, 640, 400⟩ ∧
    ((3 % 2) * 1280) / 2 = (3 % 2) * (1280 / 2) ∧
    ((make_compositor_pads 1280 800 ⟨2, 2⟩)[1]?).map (fun p => (p.x, p.y)) =
      some (specCellPos 1280 800 2 2 1) := by
  refine ⟨?_, c5_layout_amended.2.1 1280 2 3 ⟨640, rfl⟩, ?_⟩
  · have h := c5_layout_amended.1 1280 800 2 2 3 (by decide)
    rw [h]; rfl
  · exact c5_layout_amended.2.2.1 1280 800 2 2 1 ⟨640, rfl⟩ ⟨400, rfl⟩
      (by decide)

/-- C6 counterexample: an error message whose originating element is
`rtsp_src_0_decoder` — exactly the name `stream_rtsp` gives the decoder
of source `src_0` — makes the handler panic on
`sources.get(name).unwrap()` instead of returning the
continue-watching result: stripping the `rtsp_` prefix leaves
`src_0_decoder`, the `_watchdog` suffix does not apply, and
`src_0_decoder` is not a key of the sources table. -/
theorem c6_dispatcher_cx :
    dispatch [("src_0", src0ex)]
        (Msg.error (some "rtsp_src_0_decoder") (some "GstMessageError")) =
      DispatchResult.panicked "unwrap of sources.get" ∧
    Elem.mk "v4l2h264dec" (some "rtsp_src_0_decoder") ∈
      (stream_rtsp "rtsp://cam0/stream" "src_0" 640 400
        RtspScale.Fit).elems := by decide

/-- C6 amended: the handler runs to completion and returns the
continue-watching result for every runtime event *except* exactly the
two `unwrap` shapes of the code — a `GstMessageError`-structured error
from an `rtsp_`-prefixed element whose stripped id (also stripped of a
trailing `_watchdog`) is not a configured source id, and a
`GstRTSPSrcTimeout` element message whose source name lacks the
`rtsp_` prefix or strips to an unknown id — on which it panics; this
theorem characterizes the panicking events exactly. -/
theorem c6_dispatcher_amended (sources : List (String × InstantiatedSource))
    (msg : Msg) :
    isPanicDispatch (dispatch sources msg) = dispatchPanicCond sources msg := by
  cases msg with
  | error srcName structName =>
      cases structName with
      | none => cases srcName <;> rfl
      | some sn =>
          cases srcName with
          | none => simp [dispatch, dispatchPanicCond, isPanicDispatch]
          | some n =>
              by_cases hsn : sn = "GstMessageError"
              · subst hsn
                by_cases hpx : strStarts n rtspPrefixStr
                · rcases hlk : List.lookup
                      ((dropSfx (strDropN n rtspPrefixStr.length)
                        "_watchdog").getD
                        (strDropN n rtspPrefixStr.length)) sources with
                    _ | s <;>
                    simp [dispatch, dispatchPanicCond, isPanicDispatch, hpx,
                      hlk]
                · simp [dispatch, dispatchPanicCond, isPanicDispatch, hpx]
              · simp [dispatch, dispatchPanicCond, isPanicDispatch, hsn]
  | element srcName structName =>
      cases structName with
      | none => cases srcName <;> rfl
      | some sn =>
          cases srcName with
          | none => simp [dispatch, dispatchPanicCond, isPanicDispatch]
          | some n =>
              by_cases hsn : sn = "GstRTSPSrcTimeout"
              · subst hsn
                rcases hpf : dropPfx n rtspPrefixStr with _ | name
                · simp [dispatch, dispatchPanicCond, isPanicDispatch, hpf]
                · rcases hlk : List.lookup name sources with _ | s <;>
                    simp [dispatch, dispatchPanicCond, isPanicDispatch, hpf,
                      hlk]
              · simp [dispatch, dispatchPanicCond, isPanicDispatch, hsn]
  | stateChanged s => rfl
  | streamStatus a b => rfl
  | eos => rfl
  | qos s => rfl
  | latency => rfl
  | progress s => rfl
  | other => rfl

/-- C7 counterexample: the still-image and synthetic-pattern chain
descriptions end in `video/x-raw,width,height` with *no*
pixel-aspect-ratio constraint — only the RTSP description carries
`pixel-aspect-ratio=1/1`. -/
theorem c7_caps_cx :
    (stream_image "photo.png" 640 400 none).outCaps.par ≠ some (1, 1) ∧
    (stream_videotestsrc "smpte" 640 400).outCaps.par ≠ some (1, 1) ∧
    (stream_rtsp "rtsp://cam0/stream" "src_0" 640 400
        RtspScale.Fit).outCaps.par = some (1, 1) := by decide

/-- C7 amended: for every source kind and target cell size, the final
caps of the factory's description constrain the output to exactly
`width × height`; the RTSP description additionally constrains
pixel-aspect-ratio to 1:1, while the still-image and synthetic-pattern
descriptions leave the pixel-aspect-ratio unconstrained. -/
theorem c7_caps_amended (url id pat img : String) (w h : Nat)
    (scale : RtspScale) (fit : Option (Nat × Nat)) :
    (stream_rtsp url id w h scale).outCaps =
      CapsFilter.mk w h (some (1, 1)) ∧
    (stream_image img w h fit).outCaps = CapsFilter.mk w h none ∧
    (stream_videotestsrc pat w h).outCaps = CapsFilter.mk w h none :=
  ⟨rfl, rfl, rfl⟩

/-- C8 counterexample: a still-image spec with a fit width but no fit
height makes `create_source` hit
`panic!("width and height must be provided")` — the process panics
rather than an error value being returned. -/
theorem c8_factory_cx :
    create_source true srcMixedFit =
      CreateResult.panicked "width and height must be provided" ∧
    hasMixedFit srcMixedFit = true := by decide

/-- C8 amended: when the underlying chain cannot be constructed (the
launch of the description fails), `create_source` returns an error
value for every spec whose optional image fit size is both-or-neither;
but a spec with exactly one of the two fit dimensions present is not
rejected with an error — it panics, regardless of whether the chain
could be built. -/
theorem c8_factory_amended (source : InstantiatedSource) :
    (hasMixedFit source = false →
      create_source false source = CreateResult.err "launch") ∧
    (hasMixedFit source = true → ∀ b : Bool,
      create_source b source =
        CreateResult.panicked "width and height must be provided") := by
  constructor
  · intro hmx
    rcases hs : source.source.source with ⟨rtsp, scale⟩ | p | ⟨img, w?, h?⟩
    · simp [create_source, hs]
    · simp [create_source, hs]
    · rcases w? with _ | w <;> rcases h? with _ | h
      · simp [create_source, hs]
      · rw [hasMixedFit, hs] at hmx; simp at hmx
      · rw [hasMixedFit, hs] at hmx; simp at hmx
      · simp [create_source, hs]
  · intro hmx b
    rcases hs : source.source.source with ⟨rtsp, scale⟩ | p | ⟨img, w?, h?⟩
    · rw [hasMixedFit, hs] at hmx; simp at hmx
    · rw [hasMixedFit, hs] at hmx; simp at hmx
    · rcases w? with _ | w <;> rcases h? with _ | h
      · rw [hasMixedFit, hs] at hmx; simp at hmx
      · simp [create_source, hs]
      · simp [create_source, hs]
      · rw [hasMixedFit, hs] at hmx; simp at hmx

/-- Witness for the amended C8 at concrete inputs: a launch failure on
an RTSP spec returns an error, a mixed fit size panics. -/
theorem c8_factory_amended_w :
    create_source false src0ex = CreateResult.err "launch" ∧
    create_source true srcMixedFit =
      CreateResult.panicked "width and height must be provided" :=
  ⟨(c8_factory_amended src0ex).1 (by decide),
   (c8_factory_amended srcMixedFit).2 (by decide) true⟩

/-- C9 counterexample: the fallback overlay is wired for every source
of every configuration — the `Config` shape has no field that could
enable or disable it, and no configuration exists under which a
source's cell is wired without the overlay, so it is not optional and
not config-gated. -/
theorem c9_overlay_cx :
    ((wireCell cfgEx 0 srcPlainEx).overlay).isSome = true ∧
    ¬ ∃ (cfg : Config) (i : Nat) (s : Source),
        (wireCell cfg i s).overlay = none := by
  refine ⟨rfl, ?_⟩
  rintro ⟨cfg, i, s, h⟩
  simp [wireCell] at h

/-- C9 amended: for every configuration and every source, the wiring
unconditionally places the fallback switch in front of the cell, with
immediate fallback (no crossfade) and a 10-second
(10 000 000 000 ns) no-fresh-frame timeout, labelled with the source's
description, feeding compositor pad `sink_{index}` — independent of
and in addition to the restart protocol. -/
theorem c9_overlay_amended (cfg : Config) (i : Nat) (s : Source) :
    (wireCell cfg i s).overlay =
      some (FallbackOverlayDesc.mk true (10 * 1000000000) s.description) ∧
    (wireCell cfg i s).compositorPadName = "sink_" ++ toString i :=
  ⟨rfl, rfl⟩

/-- C10: the dispatcher invokes a restart only when the originating
element's name carries the `rtsp_` marker; the RTSP builder names its
bin exactly the stable id while the still-image and synthetic-pattern
builders create unnamed bins, and no element named by the still-image
or synthetic-pattern descriptions carries the `rtsp_` marker — so the
by-name bin lookup that begins a restart can succeed only for an RTSP
source. -/
theorem c10_restart_only_rtsp :
    (∀ (sources : List (String × InstantiatedSource)) (msg : Msg)
       (l : List (InstantiatedSource × RestartReason)),
      dispatch sources msg = DispatchResult.cont l → l ≠ [] →
      ∃ n, msgSrcOf msg = some n ∧ strStarts n rtspPrefixStr = true) ∧
    (∀ (url id : String) (w h : Nat) (scale : RtspScale),
      (stream_rtsp url id w h scale).binName = some id) ∧
    (∀ (img : String) (w h : Nat) (fit : Option (Nat × Nat)),
      (stream_image img w h fit).binName = none) ∧
    (∀ (pat : String) (w h : Nat),
      (stream_videotestsrc pat w h).binName = none) ∧
    (∀ (img : String) (w h : Nat) (fit : Option (Nat × Nat)),
      ∀ e ∈ (stream_image img w h fit).elems,
        ∀ nm, e.name = some nm → strStarts nm rtspPrefixStr = false) ∧
    (∀ (pat : String) (w h : Nat),
      ∀ e ∈ (stream_videotestsrc pat w h).elems,
        ∀ nm, e.name = some nm → strStarts nm rtspPrefixStr = false) := by
  refine ⟨?_, fun _ _ _ _ _ => rfl, fun _ _ _ _ => rfl, fun _ _ _ => rfl,
          ?_, ?_⟩
  · intro sources msg l hd hne
    cases msg with
    | error srcName structName =>
        cases structName with
        | none =>
            cases srcName <;> · injection hd with h; exact absurd h.symm hne
        | some sn =>
            cases srcName with
            | none =>
                by_cases hsn : sn = "GstMessageError" <;>
                  simp [dispatch, hsn] at hd <;>
                  exact absurd hd hne
            | some n =>
                refine ⟨n, rfl, ?_⟩
                by_cases hsn : sn = "GstMessageError"
                · by_cases hpx : strStarts n rtspPrefixStr
                  · exact hpx
                  · simp [dispatch, hsn, hpx] at hd
                    exact absurd hd hne
                · simp [dispatch, hsn] at hd
                  exact absurd hd hne
    | element srcName structName =>
        cases structName with
        | none =>
            cases srcName <;> · injection hd with h; exact absurd h.symm hne
        | some sn =>
            cases srcName with
            | none =>
                by_cases hsn : sn = "GstRTSPSrcTimeout" <;>
                  simp [dispatch, hsn] at hd <;>
                  exact absurd hd hne
            | some n =>
                refine ⟨n, rfl, ?_⟩
                by_cases hsn : sn = "GstRTSPSrcTimeout"
                · rcases hpf : dropPfx n rtspPrefixStr with _ | name
                  · simp [dispatch, hsn, hpf] at hd
                  · rw [dropPfx] at hpf
                    by_cases hpx : strStarts n rtspPrefixStr
                    · exact hpx
                    · rw [if_neg hpx] at hpf; cases hpf
                · simp [dispatch, hsn] at hd
                  exact absurd hd hne
    | stateChanged s => injection hd with h; exact absurd h.symm hne
    | streamStatus a b => injection hd with h; exact absurd h.symm hne
    | eos => injection hd with h; exact absurd h.symm hne
    | qos s => injection hd with h; exact absurd h.symm hne
    | latency => injection hd with h; exact absurd h.symm hne
    | progress s => injection hd with h; exact absurd h.symm hne
    | other => injection hd with h; exact absurd h.symm hne
  · intro img w h fit e he nm hnm
    rcases fit with _ | ⟨fw, fh⟩ <;>
      · simp only [stream_image, List.cons_append, List.nil_append] at he
        fin_cases he <;>
          first
          | exact Option.noConfusion hnm
          | (injection hnm with h2; subst h2; decide)
  · intro pat w h e he nm hnm
    simp only [stream_videotestsrc] at he
    fin_cases he <;>
      first
      | exact Option.noConfusion hnm
      | (injection hnm with h2; subst h2; decide)

/-- Witness for C10 at concrete inputs: a genuine RTSP timeout message
for `src_0` triggers a restart and its element name carries the
`rtsp_` marker; the bin names and the unprefixed `image` element name
are checked on concrete builder outputs. -/
theorem c10_restart_only_rtsp_w :
    (∃ n, msgSrcOf (Msg.element (some "rtsp_src_0")
        (some "GstRTSPSrcTimeout")) = some n ∧
      strStarts n rtspPrefixStr = true) ∧
    (stream_rtsp "rtsp://cam0/stream" "src_0" 640 400
        RtspScale.Fit).binName = some "src_0" ∧
    (stream_image "a.png" 640 400 none).binName = none ∧
    (stream_videotestsrc "smpte" 640 400).binName = none ∧
    strStarts "image" rtspPrefixStr = false :=
  ⟨c10_restart_only_rtsp.1 [("src_0", src0ex)]
      (Msg.element (some "rtsp_src_0") (some "GstRTSPSrcTimeout"))
      [(src0ex, RestartReason.Timeout)] (by decide) (by decide),
   c10_restart_only_rtsp.2.1 "rtsp://cam0/stream" "src_0" 640 400
      RtspScale.Fit,
   c10_restart_only_rtsp.2.2.1 "a.png" 640 400 none,
   c10_restart_only_rtsp.2.2.2.1 "smpte" 640 400,
   c10_restart_only_rtsp.2.2.2.2.1 "a.png" 640 400 none
      ⟨"imagefreeze", some "image"⟩ (by decide) "image" rfl⟩
